import Mathlib

/-!
Verification development for the aws-shortcuts command-line utility
(src/aws-shortcuts.py). The Python source is shallowly embedded below:
provider payloads become a JSON-like inductive `Val`, Python attribute
errors and key errors become the error side of `Except String`, the
session/region fan-out generator becomes a fuelled recursive function
producing a list of optional sessions, and the pandas-based sort becomes
an explicit stable lexicographic sort with the documented pandas
null-handling (nulls placed last for every key, regardless of direction).
-/

/-- Provider payload values: the unmodified, arbitrarily nested
mapping/sequence structure returned by the cloud API (Python dicts,
lists, strings and None). -/
inductive Val where
  | null : Val
  | str : String → Val
  | list : List Val → Val
  | dict : List (String × Val) → Val

/-- Python `d[k]` on a payload value: returns the entry, raises KeyError
when the key is absent and TypeError when the value is not a mapping. -/
def pyIndex (v : Val) (k : String) : Except String Val :=
  match v with
  | .dict fs =>
    match List.lookup k fs with
    | some x => .ok x
    | none => .error "KeyError"
  | _ => .error "TypeError"

/-- Python `d.get(k, None)` on a payload value: returns the entry or None
when the key is absent; raises AttributeError when the receiver is not a
dict (in particular when the receiver is None, as happens in the chained
`instance.get("State", None).get("Name")` accesses of the source). -/
def dget (v : Val) (k : String) : Except String Val :=
  match v with
  | .dict fs => .ok ((List.lookup k fs).getD Val.null)
  | _ => .error "AttributeError"

/-- Python iteration over a payload value that the source expects to be a
list; anything else raises. -/
def valItems (v : Val) : Except String (List Val) :=
  match v with
  | .list xs => .ok xs
  | _ => .error "TypeError"

/-- A normalized resource record: the ordered field list built by the
deserializers via OrderedDict (field order is the display column order). -/
abbrev Rec := List (String × Val)

/-- Field access on a normalized record; a missing column is the same as
a null entry (pandas fills absent keys with NaN when building the frame). -/
def getFld (r : Rec) (k : String) : Val := (List.lookup k r).getD Val.null

/-- Lexicographic comparison of char lists, the Python string ordering. -/
def cmpChars : List Char → List Char → Ordering
  | [], [] => .eq
  | [], _ :: _ => .lt
  | _ :: _, [] => .gt
  | a :: as, b :: bs =>
    if a < b then .lt else if b < a then .gt else cmpChars as bs

/-- Python string comparison by code points. -/
def cmpStr (x y : String) : Ordering := cmpChars x.data y.data

/-- Per-key value comparison as performed by pandas `sort_values`: null
(NaN) values sort after every non-null value for that key regardless of
the sort direction (the pandas default `na_position` is `last`); non-null
string values compare by Python string order, reversed when descending.
Non-scalar values never occur in normalized records. -/
def cmpVal (ascending : Bool) : Val → Val → Ordering
  | .null, .null => .eq
  | .null, _ => .gt
  | _, .null => .lt
  | .str x, .str y => if ascending then cmpStr x y else (cmpStr x y).swap
  | _, _ => .eq

/-- Lexicographic record comparison over a key/direction sequence: ties
on a key are broken by the next key. -/
def cmpRecords : List (String × Bool) → Rec → Rec → Ordering
  | [], _, _ => .eq
  | (k, asc) :: rest, a, b =>
    match cmpVal asc (getFld a k) (getFld b k) with
    | .eq => cmpRecords rest a b
    | o => o

/-- Strict before-relation for the sort. -/
def recLt (ks : List (String × Bool)) (a b : Rec) : Bool :=
  match cmpRecords ks a b with
  | .lt => true
  | _ => false

/-- Stable insertion of a record into an already sorted accumulator: the
new record is placed before the first strictly greater record, hence
after every earlier record that compares equal. -/
def insertOne (ks : List (String × Bool)) (r : Rec) : List Rec → List Rec
  | [] => [r]
  | x :: xs => if recLt ks r x then r :: x :: xs else x :: insertOne ks r xs

/-- Stable lexicographic sort of records (insertion sort). -/
def stableSort (ks : List (String × Bool)) (l : List Rec) : List Rec :=
  l.foldl (fun acc r => insertOne ks r acc) []

/-- Embedding of `sort_data(data, order, ascending)`: an input with fewer
than one record is returned untouched; otherwise the records are sorted
by the given column sequence through pandas `DataFrame.sort_values`,
modelled as a stable lexicographic sort with pandas null placement. -/
def sort_data (data : List Rec) (order : List String) (ascending : List Bool) : List Rec :=
  if data.length < 1 then data else stableSort (order.zip ascending) data

/-- Scan of a tag list inside `find_tag_name`: the first tag whose Key is
"Name" yields its Value; `tag["Key"]` / `tag["Value"]` are bracket
accesses that raise on a malformed tag. -/
def scanTags : List Val → Except String Val
  | [] => .ok Val.null
  | t :: ts => do
    let k ← pyIndex t "Key"
    match k with
    | .str s => if s = "Name" then pyIndex t "Value" else scanTags ts
    | _ => scanTags ts

/-- Embedding of `find_tag_name(instance)`: when the instance has a Tags
entry, scan it for the Key "Name"; otherwise the name is None. -/
def find_tag_name (inst : Val) : Except String Val :=
  match inst with
  | .dict fs =>
    match List.lookup "Tags" fs with
    | some tagsVal => do
      let tags ← valItems tagsVal
      scanTags tags
    | none => .ok Val.null
  | _ => .error "TypeError"

/-- One instance entry of `deserialize_ec2_instances`: the OrderedDict
entries are evaluated in source order; note the chained
`instance.get("State", None).get("Name")` and
`instance.get("Placement", None).get("AvailabilityZone", None)`. -/
def deserialize_one_instance (inst : Val) : Except String Rec := do
  let st ← dget inst "State"
  let stName ← dget st "Name"
  let name ← find_tag_name inst
  let iid ← dget inst "InstanceId"
  let itype ← dget inst "InstanceType"
  let pl ← dget inst "Placement"
  let az ← dget pl "AvailabilityZone"
  let priv ← dget inst "PrivateIpAddress"
  let pub ← dget inst "PublicIpAddress"
  pure [("InstanceState", stName), ("InstanceName", name), ("InstanceId", iid),
        ("InstanceType", itype), ("AvailabilityZone", az),
        ("PrivateIpAddress", priv), ("PublicIpAddress", pub)]

/-- Embedding of `deserialize_ec2_instances(response)`: flatten the
instances of every reservation into records and sort by InstanceState
then InstanceName, both ascending. -/
def deserialize_ec2_instances (response : Val) : Except String (List Rec) := do
  let reservations ← pyIndex response "Reservations"
  let rs ← valItems reservations
  let instLists ← rs.mapM (fun res => do
    let insts ← pyIndex res "Instances"
    valItems insts)
  let recs ← instLists.flatten.mapM deserialize_one_instance
  pure (sort_data recs ["InstanceState", "InstanceName"] [true, true])

/-- One interface entry of `deserialize_enis`; note the chained
`eni.get("Association", None).get("PublicIp", None)` and
`eni.get("Attachment", None).get("InstanceId", None)`. -/
def deserialize_one_eni (eni : Val) : Except String Rec := do
  let priv ← dget eni "PrivateIpAddress"
  let assoc ← dget eni "Association"
  let pub ← dget assoc "PublicIp"
  let nid ← dget eni "NetworkInterfaceId"
  let itype ← dget eni "InterfaceType"
  let att ← dget eni "Attachment"
  let iid ← dget att "InstanceId"
  let az ← dget eni "AvailabilityZone"
  let status ← dget eni "Status"
  pure [("PrivateIp", priv), ("PublicIp", pub), ("NetworkInterfaceId", nid),
        ("InterfaceType", itype), ("InstanceId", iid),
        ("AvailabilityZone", az), ("Status", status)]

/-- Embedding of `deserialize_enis(response)`. -/
def deserialize_enis (response : Val) : Except String (List Rec) := do
  let nis ← pyIndex response "NetworkInterfaces"
  let items ← valItems nis
  let recs ← items.mapM deserialize_one_eni
  pure (sort_data recs ["Status", "InterfaceType", "InstanceId"] [true, true, true])

/-- One balancer entry of `deserialize_elbs` (plain `.get` calls only). -/
def deserialize_one_elb (elb : Val) : Except String Rec := do
  let name ← dget elb "LoadBalancerName"
  let dns ← dget elb "DNSName"
  let ty ← dget elb "Type"
  let scheme ← dget elb "Scheme"
  let arn ← dget elb "LoadBalancerArn"
  pure [("LoadBalancerName", name), ("DNSName", dns), ("Type", ty),
        ("Scheme", scheme), ("LoadBalancerArn", arn)]

/-- Embedding of `deserialize_elbs(response)`. -/
def deserialize_elbs (response : Val) : Except String (List Rec) := do
  let lbs ← pyIndex response "LoadBalancers"
  let items ← valItems lbs
  let recs ← items.mapM deserialize_one_elb
  pure (sort_data recs ["LoadBalancerName"] [true])

/-- One image entry of `deserialize_images` (plain `.get` calls only). -/
def deserialize_one_image (image : Val) : Except String Rec := do
  let iid ← dget image "ImageId"
  let name ← dget image "Name"
  let date ← dget image "CreationDate"
  pure [("ImageId", iid), ("Name", name), ("CreationDate", date)]

/-- Embedding of `deserialize_images(response)`: sorted by CreationDate
descending. -/
def deserialize_images (response : Val) : Except String (List Rec) := do
  let imgs ← pyIndex response "Images"
  let items ← valItems imgs
  let recs ← items.mapM deserialize_one_image
  pure (sort_data recs ["CreationDate"] [false])

/-- Embedding of the `deserialize(response)` dispatcher: the envelope key
decides the resource kind; an unrecognized shape prints the raw response
and returns None, modelled as `.ok none`. All provider responses are
mappings, so membership tests are modelled on dicts only. -/
def deserialize (response : Val) : Except String (Option (List Rec)) :=
  match response with
  | .dict fs =>
    if (List.lookup "Reservations" fs).isSome then
      (deserialize_ec2_instances response).map some
    else if (List.lookup "NetworkInterfaces" fs).isSome then
      (deserialize_enis response).map some
    else if (List.lookup "LoadBalancers" fs).isSome then
      (deserialize_elbs response).map some
    else if (List.lookup "Images" fs).isSome then
      (deserialize_images response).map some
    else .ok none
  | _ => .error "TypeError"

/-- Outcome of one underlying SDK call: either the provider-shaped
response payload or a raised exception, which is a botocore ClientError
carrying an error code, or any other exception. -/
inductive AwsError where
  | clientError : String → AwsError
  | other : AwsError

/-- Embedding of `get_ec2_instances_by_ids(session, instance_ids)`. The
argument stands for the outcome of `client.describe_instances(InstanceIds=...)`.
A ClientError with code InvalidInstanceID.NotFound is swallowed into an
empty Reservations payload; every other exception yields None (the query
failure marker that makes the pipeline skip the context). -/
def get_ec2_instances_by_ids (call_result : Except AwsError Val) : Option Val :=
  match call_result with
  | .ok r => some r
  | .error (.clientError code) =>
    if code = "InvalidInstanceID.NotFound" then
      some (Val.dict [("Reservations", Val.list [])])
    else none
  | .error .other => none

/-- Embedding of `get_elbs_by_names(session, names)`: the bare
try/except returns the response on success and None on any exception,
including a not-found ClientError. -/
def get_elbs_by_names (call_result : Except AwsError Val) : Option Val :=
  match call_result with
  | .ok r => some r
  | .error _ => none

/-- Embedding of `get_elbs_by_arns(session, arns)`: same bare try/except
as `get_elbs_by_names` (the extra debug print on success carries no
data). -/
def get_elbs_by_arns (call_result : Except AwsError Val) : Option Val :=
  match call_result with
  | .ok r => some r
  | .error _ => none

/-- Membership test `elb["DNSName"] in dns_names` of the dns-name
filter: a payload value equals a requested string exactly when it is
that string. -/
def valInStrList (v : Val) (names : List String) : Bool :=
  match v with
  | .str s => names.contains s
  | _ => false

/-- Client-side filter loop of `get_elbs_by_dns_names`: keep each
balancer whose DNSName is a member of the requested set; the bracket
access raises on a balancer without that key. -/
def elbs_filter_loop (dns_names : List String) : List Val → Except String (List Val)
  | [] => .ok []
  | e :: es => do
    let d ← pyIndex e "DNSName"
    let rest ← elbs_filter_loop dns_names es
    pure (if valInStrList d dns_names then e :: rest else rest)

/-- Embedding of `get_elbs_by_dns_names(session, dns_names)`: the first
argument stands for the outcome of the unconditional
`client.describe_load_balancers()` listing all balancers; the matching
ones are collected into a fresh LoadBalancers payload, and any raised
exception (including during the loop) yields None. -/
def get_elbs_by_dns_names (call_result : Except AwsError Val)
    (dns_names : List String) : Option Val :=
  match call_result with
  | .error _ => none
  | .ok elbs =>
    match (do
      let lbs ← pyIndex elbs "LoadBalancers"
      let items ← valItems lbs
      let kept ← elbs_filter_loop dns_names items
      pure (Val.dict [("LoadBalancers", Val.list kept)]) : Except String Val) with
    | .ok r => some r
    | .error _ => none

/-- A concrete boto3 session: the resolved profile/region pair. -/
structure Session where
  profile_name : String
  region_name : String
deriving DecidableEq

/-- Environment of the session fan-out: the locally configured profile
list, the per-profile region discovery (None when session construction
or the describe-regions call raises), and whether constructing a session
for a concrete profile/region pair succeeds. -/
structure AwsEnv where
  available_profiles : List String
  describe_regions : String → Option (List String)
  session_ok : String → String → Bool

/-- Embedding of the recursive generator `get_aws_session(profile_name,
region_name)`: profile "all" fans out over every configured profile;
region "all" fans out over the regions discovered for the profile, or
yields a single None when discovery raises; a concrete pair yields the
session, or None when construction raises. The fuel bounds the recursion
depth (two suffices unless a discovered profile or region is itself the
literal "all"). -/
def get_aws_session (env : AwsEnv) : Nat → String → String → List (Option Session)
  | 0, _, _ => []
  | fuel + 1, profile_name, region_name =>
    if profile_name = "all" then
      (env.available_profiles.map (fun p => get_aws_session env fuel p region_name)).flatten
    else if region_name = "all" then
      match env.describe_regions profile_name with
      | some regions =>
        (regions.map (fun rg => get_aws_session env fuel profile_name rg)).flatten
      | none => [none]
    else if env.session_ok profile_name region_name then
      [some ⟨profile_name, region_name⟩]
    else [none]

/-- The concrete contexts produced by the enumeration: the consumer
(`aws_search`) skips the None sentinels, so the contexts of a run are
the yielded sessions. -/
def contexts_of (l : List (Option Session)) : List Session := l.filterMap id

/-- One observable presenter invocation of the pipeline: `print_data`
called with the context identity and the deserialized table (None when
`deserialize` hit an unrecognized shape). -/
inductive Event where
  | present : String → String → Option (List Rec) → Event

/-- Embedding of the `aws_search` loop body over an already enumerated
session list: None sessions are skipped; a None query response (request
failed) is skipped; otherwise the response is deserialized — a raised
exception there aborts the whole run — and `print_data` is invoked with
the resulting table, even when it is None. -/
def aws_search (sessions : List (Option Session)) (func : Session → Option Val) :
    Except String (List Event) :=
  match sessions with
  | [] => .ok []
  | none :: rest => aws_search rest func
  | some s :: rest =>
    match func s with
    | none => aws_search rest func
    | some response =>
      match deserialize response with
      | .error e => .error e
      | .ok table_data =>
        match aws_search rest func with
        | .error e => .error e
        | .ok evs => .ok (.present s.profile_name s.region_name table_data :: evs)

/-- One predefined AMI entry: owner ids and describe-images filters,
each filter a Name plus Values pair. -/
structure AmiFilter where
  owner_ids : List String
  filters : List (String × List String)
deriving DecidableEq

/-- Embedding of `predefined_amis(name)`: the four known keys map to
their filter; everything else maps to None. -/
def predefined_amis (name : String) : Option AmiFilter :=
  if name = "amzn2-x86_64" then
    some ⟨["amazon"], [("name", ["amzn2-ami-hvm-*-x86_64-gp2"])]⟩
  else if name = "amzn2-arm64" then
    some ⟨["amazon"], [("name", ["amzn2-ami-hvm-*-arm64-gp2"])]⟩
  else if name = "amzn2-kernel-5-x86_64" then
    some ⟨["amazon"], [("name", ["amzn2-ami-kernel-5.10-hvm-*-x86_64-gp2"])]⟩
  else if name = "amzn2-kernel-5-arm64" then
    some ⟨["amazon"], [("name", ["amzn2-ami-kernel-5.10-hvm-*-arm64-gp2"])]⟩
  else none

/-- Observable outcome of the `ami(args)` command handler: a fatal
`sys.exit` with a message, a call into `aws_search` with the resolved
owner ids and filters, or silent termination with no query and no
output. -/
inductive AmiOutcome where
  | exitError : String → AmiOutcome
  | search : List String → List (String × List String) → AmiOutcome
  | noop : AmiOutcome
deriving DecidableEq

/-- Embedding of the `ami(args)` handler: `if args.name:` is Python
truthiness, so only a non-empty name reaches the predefined-AMI lookup;
an unrecognized non-empty name falls through both branches and the
handler returns without doing anything. -/
def ami (name : String) : AmiOutcome :=
  if name ≠ "" then
    match predefined_amis name with
    | some f => .search f.owner_ids f.filters
    | none => .noop
  else .exitError "AMI: You didn't provide the right parameter"

/-- Null placement property for one sort key: whenever a record with a
null value for the key precedes another record in the list, that other
record's value for the key is null as well — the null-keyed records form
a suffix of the list. -/
def NullKeyAfter (k : String) (l : List Rec) : Prop :=
  List.Pairwise (fun a c => getFld a k = Val.null → getFld c k = Val.null) l

/-- The membership test applied to one balancer by the dns-name filter
loop: its DNSName entry is a string belonging to the requested set. -/
def dnsKeeps (dns : List String) (e : Val) : Bool :=
  match pyIndex e "DNSName" with
  | .ok v => valInStrList v dns
  | .error _ => false

/-- Fan-out environment in which both profiles construct sessions. -/
def envBothOk : AwsEnv :=
  ⟨["p1", "p2"], fun _ => none, fun _ _ => true⟩

/-- Fan-out environment in which constructing a session for profile p1
raises while p2 succeeds. -/
def envFirstFails : AwsEnv :=
  ⟨["p1", "p2"], fun _ => none, fun p _ => p != "p1"⟩

/-- Sample balancer payloads for the dns-name filter. -/
def elbA : Val := Val.dict
  [("LoadBalancerName", Val.str "lb-a"), ("DNSName", Val.str "a.elb.amazonaws.com")]

/-- Second sample balancer payload. -/
def elbB : Val := Val.dict
  [("LoadBalancerName", Val.str "lb-b"), ("DNSName", Val.str "b.elb.amazonaws.com")]

/-- Third sample balancer payload. -/
def elbC : Val := Val.dict
  [("LoadBalancerName", Val.str "lb-c"), ("DNSName", Val.str "c.elb.amazonaws.com")]

/-- C1: the claim says normalization substitutes null for any field whose
source path is missing at any level, including an entirely absent State or
Placement sub-object of an instance and an absent Association or
Attachment sub-object of an interface, and that such a lookup never fails
the record. The code instead chains `.get` onto the None default, so an
interface without an Association and an instance without a State both
raise AttributeError and abort normalization. -/
theorem C1_missing_subobject_crashes :
    deserialize_enis (Val.dict [("NetworkInterfaces", Val.list [Val.dict
        [("PrivateIpAddress", Val.str "10.0.0.5"),
         ("NetworkInterfaceId", Val.str "eni-1"),
         ("InterfaceType", Val.str "interface"),
         ("AvailabilityZone", Val.str "eu-central-1a"),
         ("Status", Val.str "in-use")]])])
      = Except.error "AttributeError"
    ∧ deserialize_ec2_instances (Val.dict [("Reservations", Val.list
        [Val.dict [("Instances", Val.list
          [Val.dict [("InstanceId", Val.str "i-1")]])]])])
      = Except.error "AttributeError" := ⟨rfl, rfl⟩

/-- C9: the claim says an unrecognized response shape is reported and the
context's output is skipped. The code's pipeline reports it but still
invokes the presenter with the None table for that context (and the
tabulate call then raises on None in table mode, aborting the run). -/
theorem C9_unrecognized_shape_still_presented :
    aws_search [some ⟨"default", "eu-central-1"⟩]
        (fun _ => some (Val.dict [("Foo", Val.list [])]))
      = Except.ok [Event.present "default" "eu-central-1" none] := rfl

/-- C10 counterexample: the empty string is a name argument outside the
four predefined AMI keys, yet the handler does not silently ignore it —
Python truthiness routes it to the fatal sys.exit branch. -/
theorem C10_counterexample :
    ami "" = AmiOutcome.exitError "AMI: You didn't provide the right parameter"
    ∧ "" ∉ ["amzn2-x86_64", "amzn2-arm64",
            "amzn2-kernel-5-x86_64", "amzn2-kernel-5-arm64"] := by
  exact ⟨rfl, by decide⟩

/-- C10 amended: for every non-empty name argument outside the four
predefined AMI keys, the ami handler performs no query, produces no
output and exits without error — the unrecognized name is silently
ignored. -/
theorem C10_amended_unknown_name_noop (name : String)
    (hk : name ∉ ["amzn2-x86_64", "amzn2-arm64",
                  "amzn2-kernel-5-x86_64", "amzn2-kernel-5-arm64"])
    (hne : name ≠ "") :
    ami name = AmiOutcome.noop := by
  have h1 : name ≠ "amzn2-x86_64" := fun h => hk (by simp [h])
  have h2 : name ≠ "amzn2-arm64" := fun h => hk (by simp [h])
  have h3 : name ≠ "amzn2-kernel-5-x86_64" := fun h => hk (by simp [h])
  have h4 : name ≠ "amzn2-kernel-5-arm64" := fun h => hk (by simp [h])
  simp [ami, predefined_amis, hne, h1, h2, h3, h4]

/-- C10 witness: the CLI help's own example name "ubuntu" is silently
ignored. -/
theorem C10_amended_witness : ami "ubuntu" = AmiOutcome.noop :=
  C10_amended_unknown_name_noop "ubuntu" (by decide) (by decide)

/-- C2 counterexample: a not-found provider error on the balancers-by-name
variant is returned as the None query-failure marker (which makes the
pipeline skip the context), not as an empty well-formed response — unlike
the instances-by-id variant, which does map its not-found error code to an
empty Reservations collection. -/
theorem C2_counterexample :
    get_elbs_by_names (Except.error (AwsError.clientError "LoadBalancerNotFound")) = none
    ∧ get_ec2_instances_by_ids
        (Except.error (AwsError.clientError "InvalidInstanceID.NotFound"))
      = some (Val.dict [("Reservations", Val.list [])]) := ⟨rfl, rfl⟩

/-- C2 amended: only the instances-by-id variant converts its not-found
error code into an empty well-formed response; any other error code there,
and every error on the balancers-by-name and balancers-by-ARN variants
(including not-found), yields the None query-failure marker and the
context is skipped. -/
theorem C2_amended_not_found_handling :
    (get_ec2_instances_by_ids
        (Except.error (AwsError.clientError "InvalidInstanceID.NotFound"))
      = some (Val.dict [("Reservations", Val.list [])]))
    ∧ (∀ code, code ≠ "InvalidInstanceID.NotFound" →
        get_ec2_instances_by_ids (Except.error (AwsError.clientError code)) = none)
    ∧ (∀ e, get_elbs_by_names (Except.error e) = none)
    ∧ (∀ e, get_elbs_by_arns (Except.error e) = none) := by
  refine ⟨rfl, ?_, fun _ => rfl, fun _ => rfl⟩
  intro code h
  simp [get_ec2_instances_by_ids, h]

/-- C2 amended witness: a permission failure on instances-by-id is a
query failure, not an empty result. -/
theorem C2_amended_witness :
    get_ec2_instances_by_ids (Except.error (AwsError.clientError "AuthFailure")) = none :=
  C2_amended_not_found_handling.2.1 "AuthFailure" (by decide)

/-- C7: instance records with States [stopped, running, stopped] and
Names [b, a, c] normalize and sort to State ascending then Name ascending
— running/a first, then stopped/b, then stopped/c — and image records
with CreationDates [2023-01-01, 2024-06-01, 2022-03-01] sort descending,
newest first. -/
theorem C7_per_kind_sort_order :
    deserialize_ec2_instances (Val.dict [("Reservations", Val.list [Val.dict
      [("Instances", Val.list
        [Val.dict
          [("State", Val.dict [("Name", Val.str "stopped")]),
           ("Tags", Val.list [Val.dict [("Key", Val.str "Name"), ("Value", Val.str "b")]]),
           ("InstanceId", Val.str "i-b"),
           ("InstanceType", Val.str "t3.micro"),
           ("Placement", Val.dict [("AvailabilityZone", Val.str "eu-central-1a")]),
           ("PrivateIpAddress", Val.str "10.0.0.1")],
         Val.dict
          [("State", Val.dict [("Name", Val.str "running")]),
           ("Tags", Val.list [Val.dict [("Key", Val.str "Name"), ("Value", Val.str "a")]]),
           ("InstanceId", Val.str "i-a"),
           ("InstanceType", Val.str "t3.micro"),
           ("Placement", Val.dict [("AvailabilityZone", Val.str "eu-central-1b")]),
           ("PrivateIpAddress", Val.str "10.0.0.2")],
         Val.dict
          [("State", Val.dict [("Name", Val.str "stopped")]),
           ("Tags", Val.list [Val.dict [("Key", Val.str "Name"), ("Value", Val.str "c")]]),
           ("InstanceId", Val.str "i-c"),
           ("InstanceType", Val.str "t3.micro"),
           ("Placement", Val.dict [("AvailabilityZone", Val.str "eu-central-1c")]),
           ("PrivateIpAddress", Val.str "10.0.0.3")]])]])])
    = Except.ok
      [[("InstanceState", Val.str "running"), ("InstanceName", Val.str "a"),
        ("InstanceId", Val.str "i-a"), ("InstanceType", Val.str "t3.micro"),
        ("AvailabilityZone", Val.str "eu-central-1b"),
        ("PrivateIpAddress", Val.str "10.0.0.2"), ("PublicIpAddress", Val.null)],
       [("InstanceState", Val.str "stopped"), ("InstanceName", Val.str "b"),
        ("InstanceId", Val.str "i-b"), ("InstanceType", Val.str "t3.micro"),
        ("AvailabilityZone", Val.str "eu-central-1a"),
        ("PrivateIpAddress", Val.str "10.0.0.1"), ("PublicIpAddress", Val.null)],
       [("InstanceState", Val.str "stopped"), ("InstanceName", Val.str "c"),
        ("InstanceId", Val.str "i-c"), ("InstanceType", Val.str "t3.micro"),
        ("AvailabilityZone", Val.str "eu-central-1c"),
        ("PrivateIpAddress", Val.str "10.0.0.3"), ("PublicIpAddress", Val.null)]]
    ∧ deserialize_images (Val.dict [("Images", Val.list
        [Val.dict [("ImageId", Val.str "ami-1"), ("Name", Val.str "img-x"),
                   ("CreationDate", Val.str "2023-01-01")],
         Val.dict [("ImageId", Val.str "ami-2"), ("Name", Val.str "img-y"),
                   ("CreationDate", Val.str "2024-06-01")],
         Val.dict [("ImageId", Val.str "ami-3"), ("Name", Val.str "img-z"),
                   ("CreationDate", Val.str "2022-03-01")]])])
      = Except.ok
        [[("ImageId", Val.str "ami-2"), ("Name", Val.str "img-y"),
          ("CreationDate", Val.str "2024-06-01")],
         [("ImageId", Val.str "ami-1"), ("Name", Val.str "img-x"),
          ("CreationDate", Val.str "2023-01-01")],
         [("ImageId", Val.str "ami-3"), ("Name", Val.str "img-z"),
          ("CreationDate", Val.str "2022-03-01")]] := ⟨rfl, rfl⟩

/-- C5 counterexample: sorting two balancer records by LoadBalancerName
ascending places the record whose value is null after the record whose
value is the string a — pandas puts missing values last by default — so a
null value is not ordered before every non-null value. -/
theorem C5_counterexample :
    sort_data [[("LoadBalancerName", Val.null)], [("LoadBalancerName", Val.str "a")]]
        ["LoadBalancerName"] [true]
      = [[("LoadBalancerName", Val.str "a")], [("LoadBalancerName", Val.null)]]
    ∧ sort_data [[("LoadBalancerName", Val.null)], [("LoadBalancerName", Val.str "a")]]
        ["LoadBalancerName"] [true]
      ≠ [[("LoadBalancerName", Val.null)], [("LoadBalancerName", Val.str "a")]] := by
  refine ⟨rfl, ?_⟩
  intro h
  have h2 : getFld ((sort_data
      [[("LoadBalancerName", Val.null)], [("LoadBalancerName", Val.str "a")]]
      ["LoadBalancerName"] [true]).headD []) "LoadBalancerName" = Val.null := by
    rw [h]; rfl
  rw [show getFld ((sort_data
      [[("LoadBalancerName", Val.null)], [("LoadBalancerName", Val.str "a")]]
      ["LoadBalancerName"] [true]).headD []) "LoadBalancerName" = Val.str "a" from rfl] at h2
  exact Val.noConfusion h2

/-- C4: a context whose query returns the request-failed marker
contributes no presenter invocation, and the run over the remaining
contexts is exactly the run that would have happened without that
context — the failure neither produces output nor aborts the rest. -/
theorem C4_query_failure_isolated (xs ys : List (Option Session)) (s : Session)
    (f : Session → Option Val) (h : f s = none) :
    aws_search (xs ++ some s :: ys) f = aws_search (xs ++ ys) f := by
  induction xs with
  | nil => simp [aws_search, h]
  | cons o rest ih =>
    cases o with
    | none => simpa [aws_search] using ih
    | some t =>
      cases hft : f t with
      | none => simpa [aws_search, hft] using ih
      | some resp =>
        cases hd : deserialize resp with
        | error e => simp [aws_search, hft, hd]
        | ok td => simp [aws_search, hft, hd, ih]

/-- C4 witness: with two enumerated contexts of which the first one's
query fails, the pipeline behaves as if only the second context existed. -/
theorem C4_witness :
    aws_search [some ⟨"p1", "eu-central-1"⟩, some ⟨"p2", "eu-central-1"⟩]
        (fun s => if s.profile_name = "p2"
          then some (Val.dict [("LoadBalancers", Val.list [])]) else none)
      = aws_search [some ⟨"p2", "eu-central-1"⟩]
        (fun s => if s.profile_name = "p2"
          then some (Val.dict [("LoadBalancers", Val.list [])]) else none) :=
  C4_query_failure_isolated [] [some ⟨"p2", "eu-central-1"⟩] ⟨"p1", "eu-central-1"⟩
    (fun s => if s.profile_name = "p2"
      then some (Val.dict [("LoadBalancers", Val.list [])]) else none) rfl

/-- C3: with the credential selector all resolving to profiles p1 and p2
and a concrete region, enumeration yields exactly the two contexts in
profile order; in an environment where constructing the p1 session
raises, it yields exactly the p2 context — the failed branch contributes
no context and enumeration of the remaining profile still happens. -/
theorem C3_fanout_two_profiles (env env2 : AwsEnv) (r : String) (hr : r ≠ "all")
    (hp : env.available_profiles = ["p1", "p2"])
    (hp2 : env2.available_profiles = ["p1", "p2"])
    (h1 : env.session_ok "p1" r = true)
    (h2 : env.session_ok "p2" r = true)
    (h3 : env2.session_ok "p1" r = false)
    (h4 : env2.session_ok "p2" r = true) :
    contexts_of (get_aws_session env 2 "all" r) = [⟨"p1", r⟩, ⟨"p2", r⟩]
    ∧ contexts_of (get_aws_session env2 2 "all" r) = [⟨"p2", r⟩] := by
  have e1 : ¬ ("p1" : String) = "all" := by decide
  have e2 : ¬ ("p2" : String) = "all" := by decide
  constructor
  · simp [get_aws_session, contexts_of, hp, hr, h1, h2, e1, e2]
  · simp [get_aws_session, contexts_of, hp2, hr, h3, h4, e1, e2]

/-- C3 witness: concrete environments exercising both halves of the
fan-out claim. -/
theorem C3_fanout_witness :
    contexts_of (get_aws_session envBothOk 2 "all" "eu-central-1")
      = [⟨"p1", "eu-central-1"⟩, ⟨"p2", "eu-central-1"⟩]
    ∧ contexts_of (get_aws_session envFirstFails 2 "all" "eu-central-1")
      = [⟨"p2", "eu-central-1"⟩] :=
  C3_fanout_two_profiles envBothOk envFirstFails "eu-central-1"
    (by decide) rfl rfl rfl rfl rfl rfl

/-- Null values never compare strictly before anything under the per-key
comparison. -/
theorem cmpVal_null_left_ne_lt (b : Bool) (v : Val) :
    cmpVal b Val.null v ≠ Ordering.lt := by
  cases v <;> simp [cmpVal]

/-- Non-null values compare strictly before null under the per-key
comparison, for either direction. -/
theorem cmpVal_lt_null (b : Bool) (v : Val) (h : v ≠ Val.null) :
    cmpVal b v Val.null = Ordering.lt := by
  cases v with
  | null => exact absurd rfl h
  | str s => rfl
  | list l => rfl
  | dict d => rfl

/-- Record comparison over a single key reduces to the per-key value
comparison. -/
theorem cmpRecords_single (k : String) (b : Bool) (a c : Rec) :
    cmpRecords [(k, b)] a c = cmpVal b (getFld a k) (getFld c k) := by
  cases h : cmpVal b (getFld a k) (getFld c k) <;> simp [cmpRecords, h]

/-- The strict before-relation holds exactly when the lexicographic
comparison answers lt. -/
theorem recLt_iff (ks : List (String × Bool)) (a b : Rec) :
    recLt ks a b = true ↔ cmpRecords ks a b = Ordering.lt := by
  cases h : cmpRecords ks a b <;> simp [recLt, h]

/-- Bind on a successful Except computation runs the continuation. -/
theorem except_bind_ok {ε α β : Type} (a : α) (f : α → Except ε β) :
    (Except.ok a : Except ε α) >>= f = f a := rfl

/-- Map on a successful Except computation maps the value. -/
theorem except_map_ok {ε α β : Type} (f : α → β) (a : α) :
    f <$> (Except.ok a : Except ε α) = Except.ok (f a) := rfl

/-- Pure in the Except monad is the success constructor. -/
theorem except_pure_ok {ε α : Type} (a : α) :
    (pure a : Except ε α) = Except.ok a := rfl

/-- Every element of an insertion is the inserted record or one of the
original elements. -/
theorem mem_insertOne {ks : List (String × Bool)} {r y : Rec} :
    ∀ {l : List Rec}, y ∈ insertOne ks r l → y = r ∨ y ∈ l := by
  intro l
  induction l with
  | nil =>
    intro h
    simpa [insertOne] using h
  | cons x xs ih =>
    intro h
    cases hc : recLt ks r x with
    | true =>
      simp only [insertOne, hc, if_true, List.mem_cons] at h
      rcases h with h | h | h
      · exact .inl h
      · exact .inr (by simp [h])
      · exact .inr (List.mem_cons_of_mem x h)
    | false =>
      simp only [insertOne, hc, Bool.false_eq_true, if_false, List.mem_cons] at h
      rcases h with h | h
      · exact .inr (by simp [h])
      · rcases ih h with h | h
        · exact .inl h
        · exact .inr (List.mem_cons_of_mem x h)

/-- Inserting a record into a list whose null-keyed records form a
suffix keeps that property. -/
theorem insertOne_nullKeyAfter (k : String) (b : Bool) (r : Rec) :
    ∀ (l : List Rec), NullKeyAfter k l → NullKeyAfter k (insertOne [(k, b)] r l) := by
  intro l
  induction l with
  | nil =>
    intro _
    simp [insertOne, NullKeyAfter]
  | cons x xs ih =>
    intro h
    rcases List.pairwise_cons.mp h with ⟨hx, hxs⟩
    cases hc : recLt [(k, b)] r x with
    | true =>
      have hrn : getFld r k ≠ Val.null := by
        intro hn
        have hlt := (recLt_iff [(k, b)] r x).mp hc
        rw [cmpRecords_single, hn] at hlt
        exact cmpVal_null_left_ne_lt b _ hlt
      simp only [insertOne, hc, if_true]
      exact List.pairwise_cons.mpr ⟨fun y _ hnull => absurd hnull hrn, h⟩
    | false =>
      simp only [insertOne, hc, Bool.false_eq_true, if_false]
      refine List.pairwise_cons.mpr ⟨?_, ih hxs⟩
      intro y hy hxnull
      rcases mem_insertOne hy with rfl | hyxs
      · by_contra hrn
        have hlt : cmpRecords [(k, b)] y x = Ordering.lt := by
          rw [cmpRecords_single, hxnull]
          exact cmpVal_lt_null b _ hrn
        rw [(recLt_iff [(k, b)] y x).mpr hlt] at hc
        exact Bool.noConfusion hc
      · exact hx y hyxs hxnull

/-- The insertion sort keeps null-keyed records in a suffix throughout
its fold. -/
theorem foldl_insertOne_nullKeyAfter (k : String) (b : Bool) :
    ∀ (l acc : List Rec), NullKeyAfter k acc →
      NullKeyAfter k (List.foldl (fun a r => insertOne [(k, b)] r a) acc l)
  | [], _, h => h
  | r :: rs, acc, h => by
    simp only [List.foldl_cons]
    exact foldl_insertOne_nullKeyAfter k b rs _ (insertOne_nullKeyAfter k b r acc h)

/-- C5 amended: for every record sequence sorted by one key in either
direction, a record whose value for that key is null is ordered after —
not before — every record whose value for the same key is non-null: the
null-keyed records form a suffix of the sorted output (pandas places
missing values last by default). -/
theorem C5_amended_nulls_sort_after (data : List Rec) (k : String) (b : Bool) :
    NullKeyAfter k (sort_data data [k] [b]) := by
  cases data with
  | nil => simp [sort_data, NullKeyAfter]
  | cons x xs =>
    have hlen : ¬ (x :: xs).length < 1 := by simp
    simp only [sort_data, if_neg hlen]
    exact foldl_insertOne_nullKeyAfter k b (x :: xs) [] List.Pairwise.nil

/-- The dns-name filter loop succeeds and keeps exactly the matching
balancers when every listed balancer carries a DNSName entry. -/
theorem elbs_filter_loop_filters (dns : List String) :
    ∀ (items : List Val),
      (∀ e ∈ items, ∃ v, pyIndex e "DNSName" = Except.ok v) →
      elbs_filter_loop dns items = Except.ok (items.filter (dnsKeeps dns)) := by
  intro items
  induction items with
  | nil =>
    intro _
    rfl
  | cons e es ih =>
    intro h
    obtain ⟨v, hv⟩ := h e (by simp)
    have hes := ih (fun x hx => h x (by simp [hx]))
    have hk : dnsKeeps dns e = valInStrList v dns := by
      simp [dnsKeeps, hv]
    simp only [elbs_filter_loop, hv, hes, except_bind_ok, except_pure_ok,
               List.filter_cons, hk]

/-- C8: the balancers-by-dns-name query filters the full unconditional
balancer listing client-side by exact string membership: for every listed
balancer collection (each entry carrying a DNSName) and every requested
set, exactly the balancers whose DNSName is a member of the set are
returned, wrapped in a well-formed LoadBalancers payload. -/
theorem C8_dns_name_filter (items : List Val) (dns : List String)
    (h : ∀ e ∈ items, ∃ v, pyIndex e "DNSName" = Except.ok v) :
    get_elbs_by_dns_names
        (Except.ok (Val.dict [("LoadBalancers", Val.list items)])) dns
      = some (Val.dict [("LoadBalancers",
          Val.list (items.filter (dnsKeeps dns)))]) := by
  have hloop := elbs_filter_loop_filters dns items h
  show (match elbs_filter_loop dns items >>= (fun kept =>
      Except.ok (Val.dict [("LoadBalancers", Val.list kept)])) with
    | Except.ok r => some r
    | Except.error _ => none)
    = some (Val.dict [("LoadBalancers", Val.list (items.filter (dnsKeeps dns)))])
  rw [hloop]
  rfl

/-- C8 witness: a requested set matching exactly one of three listed
balancers yields exactly that balancer's payload. -/
theorem C8_witness :
    get_elbs_by_dns_names
        (Except.ok (Val.dict [("LoadBalancers", Val.list [elbA, elbB, elbC])]))
        ["b.elb.amazonaws.com"]
      = some (Val.dict [("LoadBalancers", Val.list [elbB])]) := by
  have h := C8_dns_name_filter [elbA, elbB, elbC] ["b.elb.amazonaws.com"] ?hdns
  case hdns =>
    intro e he
    rcases List.mem_cons.mp he with rfl | he
    · exact ⟨_, rfl⟩
    rcases List.mem_cons.mp he with rfl | he
    · exact ⟨_, rfl⟩
    rcases List.mem_cons.mp he with rfl | he
    · exact ⟨_, rfl⟩
    exact absurd he (List.not_mem_nil e)
  rw [h]
  rfl
